import Mathlib

/-!
Verification of the GCIR-GMS proposal code allocator and PI-invariant
enforcer (Django app `proposals`), shallowly embedded in Lean.

The embedding mirrors `proposals/services.py` (the two code generators),
`proposals/models.py` (`Proposal.clean`, the `ProposalInvestigator`
database constraints) and `proposals/admin.py` (the inline form `clean`,
`save_formset`, and the two `pre_save` signal handlers).

Modelling conventions:
* Database rows are Lean structures; only the fields the verified core
  reads are carried (CRUD metadata such as titles, emails and status
  timelines is out of scope).
* The querysets touched by the allocators are lists of rows; `filter`,
  `startswith`, `split` and `int()` are embedded explicitly.
* `datetime.now().year` is the explicit argument `nowYear`.
* Functions that raise (`DoesNotExist`, `ValidationError`,
  `IntegrityError`) return `Except`/`Option`.
-/

/-- A calendar date, as far as the code reads it (`application_date.year`). -/
structure PyDate where
  year : Nat
  month : Nat
  day : Nat
deriving DecidableEq, Repr

/-- Whether the character list `s` starts with the character list `p`
(structural counterpart of Python `str.startswith`). -/
def charsStartWith : List Char → List Char → Bool
  | _, [] => true
  | [], _ :: _ => false
  | c :: cs, p :: ps => c = p && charsStartWith cs ps

/-- Python `code.startswith(pat)` on the underlying character lists. -/
def strStartsWith (s pat : String) : Bool :=
  charsStartWith s.data pat.data

/-- Python `str.split('-')`: split at every dash, keeping empty segments
(so the result is never empty). -/
def splitOnDash : List Char → List (List Char)
  | [] => [[]]
  | c :: cs =>
    if c = '-' then [] :: splitOnDash cs
    else
      match splitOnDash cs with
      | [] => [[c]]
      | h :: t => (c :: h) :: t

/-- Strip leading and trailing whitespace (Python `str.strip()` as applied
by `int()` before parsing). -/
def trimChars (cs : List Char) : List Char :=
  ((cs.dropWhile Char.isWhitespace).reverse.dropWhile Char.isWhitespace).reverse

/-- Digits read as a base-10 natural number (assumes all chars are digits,
as checked by the caller). -/
def digitsToNat (cs : List Char) : Nat :=
  cs.foldl (fun a c => a * 10 + (c.toNat - Char.toNat '0')) 0

/-- Python `int(s)` on a string: strips surrounding whitespace, accepts one
optional sign followed by a non-empty run of digits; anything else raises
`ValueError`, modelled as `none`.  (Underscore digit separators, a Python
nicety no stored code uses, are not modelled.) -/
def pyInt (s : String) : Option Int :=
  let t := trimChars s.data
  let neg := charsStartWith t ['-']
  let core := if neg || charsStartWith t ['+'] then t.drop 1 else t
  if core.length > 0 && core.all Char.isDigit then
    some (if neg then -(digitsToNat core : Int) else (digitsToNat core : Int))
  else
    none

/-- Left-pad a string with zeros to the given width. -/
def zfill (w : Nat) (s : String) : String :=
  if s.length ≥ w then s else String.mk (List.replicate (w - s.length) '0') ++ s

/-- Python `f"\x7bn:04d\x7d"`: decimal, zero-padded to width 4 (the sign,
when present, counts toward the width); numbers needing more digits are
printed unpadded. -/
def pad4 (n : Int) : String :=
  if n < 0 then "-" ++ zfill 3 (toString n.natAbs) else zfill 4 (toString n.natAbs)

/-- Python `max` over a non-empty list (junk value 0 on `[]`, which the
source guards against with an emptiness test). -/
def listMax : List Int → Int
  | [] => 0
  | x :: xs => xs.foldl max x

/-- Python truthiness of an optional integer id (`if funding_agency_id:`). -/
def truthyId : Option Nat → Bool
  | none => false
  | some i => i != 0

/-- `Department` row: `code` (unique) and the implicit primary key. -/
structure Department where
  id : Nat
  code : String
deriving DecidableEq, Repr

/-- `ProjectType` row. -/
structure ProjectType where
  id : Nat
  code : String
deriving DecidableEq, Repr

/-- `FundingAgency` row. -/
structure FundingAgency where
  id : Nat
  code : String
deriving DecidableEq, Repr

/-- `Proposal` row, restricted to the fields the allocator, the signal
handler and `clean` read. -/
structure Proposal where
  pk : Option Nat
  gcir_code : String
  project_type_id : Nat
  department_id : Nat
  funding_agency_id : Option Nat
  application_date : Option PyDate
deriving DecidableEq, Repr

/-- `ExternalInvestigator` row, restricted to `pk` and `code`
(`code` is nullable: `blank=True, null=True`). -/
structure ExternalInvestigator where
  pk : Option Nat
  code : Option String
deriving DecidableEq, Repr

/-- The relational store the two generators read. -/
structure DB where
  departments : List Department
  projectTypes : List ProjectType
  fundingAgencies : List FundingAgency
  proposals : List Proposal
  externals : List ExternalInvestigator
deriving Repr

/-- Failure modes of `generate_gcir_code` (`DoesNotExist` per lookup). -/
inductive GenError where
  | projectTypeNotFound
  | departmentNotFound
  | fundingAgencyNotFound
deriving DecidableEq, Repr

instance : DecidableEq (Except GenError String) := fun
  | .ok a, .ok b =>
    if h : a = b then .isTrue (by rw [h]) else .isFalse (by simp [h])
  | .error a, .error b =>
    if h : a = b then .isTrue (by rw [h]) else .isFalse (by simp [h])
  | .ok _, .error _ => .isFalse (by simp)
  | .error _, .ok _ => .isFalse (by simp)

instance : DecidableEq (Except String Unit) := fun
  | .ok _, .ok _ => .isTrue rfl
  | .error a, .error b =>
    if h : a = b then .isTrue (by rw [h]) else .isFalse (by simp [h])
  | .ok _, .error _ => .isFalse (by simp)
  | .error _, .ok _ => .isFalse (by simp)

/-- Django `Model.objects.get(id=i)`, `none` when the row does not exist. -/
def getDepartment (db : DB) (i : Nat) : Option Department :=
  db.departments.find? (fun d => d.id = i)

/-- Lookup of a `ProjectType` by id. -/
def getProjectType (db : DB) (i : Nat) : Option ProjectType :=
  db.projectTypes.find? (fun t => t.id = i)

/-- Lookup of a `FundingAgency` by id. -/
def getFundingAgency (db : DB) (i : Nat) : Option FundingAgency :=
  db.fundingAgencies.find? (fun a => a.id = i)

/-- Year determination of `generate_gcir_code`: explicit year, else the
application date's year, else the current calendar year.  (`if
application_date:` is truthiness; a date object is always truthy, and the
`hasattr` fallback for non-date values is unreachable for dates.) -/
def deriveYear (year : Option Nat) (applicationDate : Option PyDate) (nowYear : Nat) : Nat :=
  match year with
  | some y => y
  | none =>
    match applicationDate with
    | some d => d.year
    | none => nowYear

/-- The trailing segment of a code: `code.split('-')[-1]` (a split is never
empty, so the `[-1]` cannot raise `IndexError`). -/
def lastSegment (s : String) : String :=
  String.mk ((splitOnDash s.data).getLastD [])

/-- Serial extraction in the proposal max-serial scan: parse the trailing
segment, skipping codes whose segment is not an integer. -/
def proposalSerial (code : String) : Option Int :=
  pyInt (lastSegment code)

/-- The serial list of the `generate_gcir_code` loop over the locked rows:
rows whose code parses contribute `int(code.split('-')[-1])`, the rest are
skipped by the `except` clause. -/
def gcirSerials (rows : List Proposal) : List Int :=
  rows.filterMap (fun p => proposalSerial p.gcir_code)

/-- The `next_serial` computation of `generate_gcir_code` on the rows
matching the pattern: `max(serials) + 1 if serials else 1` when any row
exists, `1` when none does. -/
def gcirNextSerial (matching : List Proposal) : Int :=
  if matching.isEmpty then 1
  else
    let serials := gcirSerials matching
    if serials.isEmpty then 1 else listMax serials + 1

/-- The pattern string `G-\x7byear\x7d-\x7bdept\x7d-\x7btype\x7d[-\x7bagency\x7d]-` built at
services.py line 66 (`agencyPart` is `""` or `"-" ++ agency.code`). -/
def gcirPat (year : Nat) (deptCode typeCode agencyPart : String) : String :=
  "G-" ++ toString year ++ "-" ++ deptCode ++ "-" ++ typeCode ++ agencyPart ++ "-"

/-- `generate_gcir_code` of services.py: determine the year, resolve the
partition-defining rows (raising `DoesNotExist` on a missing one), build
the pattern, lock-and-scan the proposals whose code starts with it, and
return the pattern followed by the zero-padded next serial. -/
def generate_gcir_code (db : DB) (projectTypeId departmentId : Nat)
    (year : Option Nat) (fundingAgencyId : Option Nat)
    (applicationDate : Option PyDate) (nowYear : Nat) : Except GenError String :=
  let y := deriveYear year applicationDate nowYear
  match getProjectType db projectTypeId with
  | none => .error .projectTypeNotFound
  | some projectType =>
    match getDepartment db departmentId with
    | none => .error .departmentNotFound
    | some department =>
      let agencyPart : Except GenError String :=
        if truthyId fundingAgencyId then
          match getFundingAgency db (fundingAgencyId.getD 0) with
          | none => .error .fundingAgencyNotFound
          | some agency => .ok ("-" ++ agency.code)
        else .ok ""
      match agencyPart with
      | .error e => .error e
      | .ok agencyStr =>
        let pat := gcirPat y department.code projectType.code agencyStr
        let matching := db.proposals.filter (fun p => strStartsWith p.gcir_code pat)
        .ok (pat ++ pad4 (gcirNextSerial matching))

/-- Serial extraction in the external-investigator scan: unset codes
(`None` or `""`) are skipped, otherwise `int(code[1:])`, skipping parse
failures. -/
def externalSerial : Option String → Option Int
  | none => none
  | some c => if c = "" then none else pyInt (String.mk (c.data.drop 1))

/-- The serial list of the `generate_external_investigator_code` loop. -/
def externalSerials (rows : List ExternalInvestigator) : List Int :=
  rows.filterMap (fun i => externalSerial i.code)

/-- The `next_serial` computation of `generate_external_investigator_code`. -/
def externalNextSerial (rows : List ExternalInvestigator) : Int :=
  if rows.isEmpty then 1
  else
    let serials := externalSerials rows
    if serials.isEmpty then 1 else listMax serials + 1

/-- `generate_external_investigator_code` of services.py: lock-and-scan all
external investigators and return `E` followed by the zero-padded next
serial of the single global partition. -/
def generate_external_investigator_code (db : DB) : String :=
  "E" ++ pad4 (externalNextSerial db.externals)


/-- Role tag of a `ProposalInvestigator` row (`ROLE_CHOICES`). -/
inductive Role where
  | PI
  | CO_PI
deriving DecidableEq, Repr

/-- `ProposalInvestigator` row: the join between a proposal and one of the
two investigator pools, with its role tag.  Both reference fields are
nullable at the row level; the `Meta` constraints police them. -/
structure ProposalInvestigator where
  proposal_id : Nat
  investigator_id : Option Nat
  external_investigator_id : Option Nat
  role : Role
deriving DecidableEq, Repr

/-- The check constraint `either_internal_or_external_investigator`:
internal set and external null, or internal null and external set. -/
def checkEitherOr (r : ProposalInvestigator) : Bool :=
  (r.investigator_id.isSome && r.external_investigator_id.isNone) ||
  (r.investigator_id.isNone && r.external_investigator_id.isSome)

/-- The partial unique constraint `unique_internal_investigator_per_proposal`
(on `(proposal, investigator)` where `investigator` is non-null): the new
row conflicts when a stored row on the same proposal has the same non-null
internal investigator. -/
def violatesUniqueInternal (rows : List ProposalInvestigator) (r : ProposalInvestigator) : Bool :=
  r.investigator_id.isSome &&
    rows.any (fun q => q.proposal_id = r.proposal_id && q.investigator_id = r.investigator_id)

/-- The partial unique constraint `unique_external_investigator_per_proposal`,
the external-reference twin of the internal one. -/
def violatesUniqueExternal (rows : List ProposalInvestigator) (r : ProposalInvestigator) : Bool :=
  r.external_investigator_id.isSome &&
    rows.any (fun q =>
      q.proposal_id = r.proposal_id && q.external_investigator_id = r.external_investigator_id)

/-- Persisting a `ProposalInvestigator` row: the database admits the row
only when all three `Meta` constraints hold, otherwise the insert raises
`IntegrityError` (modelled as `none`) and the store is unchanged. -/
def insertProposalInvestigator (rows : List ProposalInvestigator) (r : ProposalInvestigator) :
    Option (List ProposalInvestigator) :=
  if checkEitherOr r && !violatesUniqueInternal rows r && !violatesUniqueExternal rows r then
    some (rows ++ [r])
  else
    none

/-- `ProposalInvestigatorForm.clean` of admin.py: exactly one of the two
investigator references must be chosen, otherwise the form raises
`ValidationError` before anything is persisted. -/
def proposalInvestigatorFormClean (investigator external_inv : Option Nat) :
    Except String Unit :=
  if investigator.isNone && external_inv.isNone then
    .error "You must select either an Internal Investigator or an External Investigator."
  else if investigator.isSome && external_inv.isSome then
    .error "You cannot select both an Internal Investigator and an External Investigator. Please choose one."
  else
    .ok ()

/-- The PI count read by `Proposal.clean` and `save_formset`:
`proposal.proposal_investigators.filter(role='PI').count()`. -/
def piCount (rows : List ProposalInvestigator) (pid : Nat) : Nat :=
  (rows.filter (fun r => r.proposal_id = pid && r.role = Role.PI)).length

/-- The Co-PI count read by `save_formset`. -/
def coPiCount (rows : List ProposalInvestigator) (pid : Nat) : Nat :=
  (rows.filter (fun r => r.proposal_id = pid && r.role = Role.CO_PI)).length

/-- `Proposal.clean` of models.py: skip entirely when the proposal has no
primary key yet; otherwise count PI role assignments and raise
`ValidationError` on a count of zero (one literal message) or more than one
(a second, textually identical literal message); pass on exactly one. -/
def Proposal.clean (p : Proposal) (rows : List ProposalInvestigator) : Except String Unit :=
  match p.pk with
  | none => .ok ()
  | some pid =>
    let c := piCount rows pid
    if c = 0 then
      .error "Proposal must have exactly one Principal Investigator (PI); only one Principal Investigator is allowed."
    else if c > 1 then
      .error "Proposal must have exactly one Principal Investigator (PI); only one Principal Investigator is allowed."
    else
      .ok ()

/-- The user-facing message levels of `django.contrib.messages` used by
`ProposalAdmin.save_formset`. -/
inductive AdminMsg where
  | warning (text : String)
  | error (text : String)
  | success (text : String)
deriving DecidableEq, Repr

/-- The effect of `formset.save()` on the role-assignment store: the
batch's deletions are applied and its new/changed rows written. -/
def applyFormsetSave (rows toDelete toAdd : List ProposalInvestigator) :
    List ProposalInvestigator :=
  (rows.filter (fun r => !toDelete.contains r)) ++ toAdd

/-- `ProposalAdmin.save_formset` of admin.py: first `formset.save()` (the
batch is persisted unconditionally), then count PIs and Co-PIs on the
just-saved store and report a warning (zero PIs), an error (several PIs) or
a success message — the saved rows are returned as-is in every branch. -/
def save_formset (rows toDelete toAdd : List ProposalInvestigator) (pid : Nat) :
    List ProposalInvestigator × AdminMsg :=
  let savedRows := applyFormsetSave rows toDelete toAdd
  let pi := piCount savedRows pid
  let coPi := coPiCount savedRows pid
  if pi = 0 then
    (savedRows, .warning "⚠️  Warning: This proposal has no Principal Investigator (PI). Each proposal must have exactly one PI. Please add one in the Investigators section.")
  else if pi > 1 then
    (savedRows, .error ("❌ Error: This proposal has " ++ toString pi ++ " Principal Investigators (PIs), but only one is allowed. Please remove the extras."))
  else
    (savedRows, .success ("✓ Proposal saved. PI: 1, Co-PIs: " ++ toString coPi))

/-- The `pre_save` signal handler `auto_generate_gcir_code` of admin.py:
only a new proposal (`pk is None`) with a falsy (empty) `gcir_code` gets a
generated code (note: the handler never passes an explicit year, so the
year comes from the application date or the clock); any other instance is
left untouched. -/
def auto_generate_gcir_code (db : DB) (inst : Proposal) (nowYear : Nat) :
    Except GenError Proposal :=
  if inst.pk = none ∧ inst.gcir_code = "" then
    match generate_gcir_code db inst.project_type_id inst.department_id none
        inst.funding_agency_id inst.application_date nowYear with
    | .error e => .error e
    | .ok code => .ok { inst with gcir_code := code }
  else
    .ok inst

/-- The `pre_save` signal handler `auto_generate_external_investigator_code`
of admin.py: only a new external investigator with a falsy code (`None` or
`""`) gets a generated code. -/
def auto_generate_external_investigator_code (db : DB) (inst : ExternalInvestigator) :
    ExternalInvestigator :=
  if inst.pk = none ∧ (inst.code = none ∨ inst.code = some "") then
    { inst with code := some (generate_external_investigator_code db) }
  else
    inst

/-- The fully-resolved pattern of a partition key: `some pat` exactly when
every partition-defining lookup of `generate_gcir_code` succeeds, in which
case `pat` is the pattern the allocator scans for. -/
def resolvedPat (db : DB) (projectTypeId departmentId : Nat) (year : Option Nat)
    (fundingAgencyId : Option Nat) (applicationDate : Option PyDate) (nowYear : Nat) :
    Option String :=
  match getProjectType db projectTypeId, getDepartment db departmentId with
  | some projectType, some department =>
    if truthyId fundingAgencyId then
      match getFundingAgency db (fundingAgencyId.getD 0) with
      | some agency =>
        some (gcirPat (deriveYear year applicationDate nowYear)
          department.code projectType.code ("-" ++ agency.code))
      | none => none
    else
      some (gcirPat (deriveYear year applicationDate nowYear)
        department.code projectType.code "")
  | _, _ => none

/-- Modelled from the spec: the next-serial rule as §4.1 words it — the
maximum of the parsed serials of the stored codes matching the prefix,
plus one, or `1` when there is none. -/
def claimNextSerial (db : DB) (pat : String) : Int :=
  let parsed :=
    ((db.proposals.map (fun p => p.gcir_code)).filter
      (fun c => strStartsWith c pat)).filterMap proposalSerial
  if parsed.isEmpty then 1 else listMax parsed + 1

/-! ## Helper lemmas -/

theorem gcirNextSerial_eq (l : List Proposal) :
    gcirNextSerial l = if (gcirSerials l).isEmpty then 1 else listMax (gcirSerials l) + 1 := by
  cases l with
  | nil => simp [gcirNextSerial, gcirSerials]
  | cons p ps => simp [gcirNextSerial]

theorem generate_gcir_code_eq (db : DB) (ptId dId : Nat) (y fa : Option Nat)
    (ad : Option PyDate) (ny : Nat) (pat : String)
    (h : resolvedPat db ptId dId y fa ad ny = some pat) :
    generate_gcir_code db ptId dId y fa ad ny =
      .ok (pat ++ pad4 (gcirNextSerial
        (db.proposals.filter (fun p => strStartsWith p.gcir_code pat)))) := by
  simp only [generate_gcir_code, resolvedPat] at h ⊢
  cases hpt : getProjectType db ptId with
  | none => simp [hpt] at h
  | some pt =>
    cases hd : getDepartment db dId with
    | none => simp [hpt, hd] at h
    | some d =>
      simp only [hpt, hd] at h ⊢
      by_cases hfa : truthyId fa = true
      · simp only [hfa, if_true] at h ⊢
        cases hag : getFundingAgency db (fa.getD 0) with
        | none => simp [hag] at h
        | some ag =>
          simp only [hag, Option.some.injEq] at h ⊢
          subst h
          rfl
      · simp only [hfa, Bool.false_eq_true, if_false, Option.some.injEq] at h ⊢
        subst h
        rfl

theorem generate_gcir_code_isOk (db : DB) (ptId dId : Nat) (y fa : Option Nat)
    (ad : Option PyDate) (ny : Nat) :
    (generate_gcir_code db ptId dId y fa ad ny).isOk =
      (resolvedPat db ptId dId y fa ad ny).isSome := by
  simp only [generate_gcir_code, resolvedPat]
  cases hpt : getProjectType db ptId with
  | none => rfl
  | some pt =>
    cases hd : getDepartment db dId with
    | none => rfl
    | some d =>
      by_cases hfa : truthyId fa = true
      · simp only [hfa, if_true]
        cases hag : getFundingAgency db (fa.getD 0) with
        | none => rfl
        | some ag => rfl
      · simp only [hfa, Bool.false_eq_true, if_false]
        rfl

theorem gcirNextSerial_cons_none (q : Proposal) (l : List Proposal)
    (h : proposalSerial q.gcir_code = none) :
    gcirNextSerial (q :: l) = gcirNextSerial l := by
  rw [gcirNextSerial_eq, gcirNextSerial_eq]
  have hs : gcirSerials (q :: l) = gcirSerials l := by
    simp [gcirSerials, List.filterMap_cons, h]
  rw [hs]

theorem generate_cons_skip (db : DB) (ptId dId : Nat) (y fa : Option Nat)
    (ad : Option PyDate) (ny : Nat) (pat : String) (q : Proposal)
    (h : resolvedPat db ptId dId y fa ad ny = some pat)
    (hq : strStartsWith q.gcir_code pat = false ∨ proposalSerial q.gcir_code = none) :
    generate_gcir_code { db with proposals := q :: db.proposals } ptId dId y fa ad ny =
      generate_gcir_code db ptId dId y fa ad ny := by
  have h' : resolvedPat { db with proposals := q :: db.proposals } ptId dId y fa ad ny
      = some pat := h
  rw [generate_gcir_code_eq _ ptId dId y fa ad ny pat h',
    generate_gcir_code_eq db ptId dId y fa ad ny pat h]
  show Except.ok (pat ++ pad4 (gcirNextSerial
      ((q :: db.proposals).filter (fun p => strStartsWith p.gcir_code pat)))) = _
  rcases hq with hq | hq
  · rw [List.filter_cons_of_neg (by simp [hq])]
  · by_cases hm : strStartsWith q.gcir_code pat = true
    · rw [List.filter_cons_of_pos (by simp [hm]), gcirNextSerial_cons_none q _ hq]
    · rw [List.filter_cons_of_neg (by simp [hm])]

/-! ## C1: partition independence -/

/-- C1, counterexample: with the store holding only the agency-partition
code `G-2025-CS-IND-NSF-0001`, the first allocation in the otherwise
identical no-agency partition (same year, department and type, no funding
agency) returns serial 2 — the agency code's serial did contribute to the
other partition's max-serial computation (on the empty store the same call
returns serial 1). -/
theorem C1_counterexample :
    generate_gcir_code
      { departments := [⟨1, "CS"⟩], projectTypes := [⟨1, "IND"⟩],
        fundingAgencies := [⟨1, "NSF"⟩],
        proposals := [{ pk := some 1, gcir_code := "G-2025-CS-IND-NSF-0001",
                        project_type_id := 1, department_id := 1,
                        funding_agency_id := some 1, application_date := none }],
        externals := [] }
      1 1 (some 2025) none none 2025 = .ok "G-2025-CS-IND-0002" ∧
    generate_gcir_code
      { departments := [⟨1, "CS"⟩], projectTypes := [⟨1, "IND"⟩],
        fundingAgencies := [⟨1, "NSF"⟩], proposals := [], externals := [] }
      1 1 (some 2025) none none 2025 = .ok "G-2025-CS-IND-0001" ∧
    "G-2025-CS-IND-0002" ≠ "G-2025-CS-IND-" ++ pad4 1 := by
  refine ⟨by decide, by decide, by decide⟩

/-- C1, amended: serial sequences of two partitions are independent exactly
up to string-prefix overlap of their patterns.  (1) If no stored code
starts with a partition's pattern, the first allocation there yields
serial 1; (2) a stored code that does not start with the pattern never
contributes to the allocation.  The claim's flagship instance fails: the
no-agency pattern is a string prefix of the agency partition's codes, so
agency codes do contribute to the no-agency partition (the converse
direction is independent, as the witness shows). -/
theorem C1_amended :
    (∀ (db : DB) (ptId dId : Nat) (y fa : Option Nat) (ad : Option PyDate) (ny : Nat)
        (pat : String),
      resolvedPat db ptId dId y fa ad ny = some pat →
      (∀ p ∈ db.proposals, strStartsWith p.gcir_code pat = false) →
      generate_gcir_code db ptId dId y fa ad ny = .ok (pat ++ pad4 1)) ∧
    (∀ (db : DB) (ptId dId : Nat) (y fa : Option Nat) (ad : Option PyDate) (ny : Nat)
        (pat : String) (q : Proposal),
      resolvedPat db ptId dId y fa ad ny = some pat →
      strStartsWith q.gcir_code pat = false →
      generate_gcir_code { db with proposals := q :: db.proposals } ptId dId y fa ad ny =
        generate_gcir_code db ptId dId y fa ad ny) := by
  constructor
  · intro db ptId dId y fa ad ny pat h hnone
    rw [generate_gcir_code_eq db ptId dId y fa ad ny pat h]
    have hfilter : db.proposals.filter (fun p => strStartsWith p.gcir_code pat) = [] := by
      rw [List.filter_eq_nil_iff]
      intro p hp
      simp [hnone p hp]
    rw [hfilter]
    rfl
  · intro db ptId dId y fa ad ny pat q h hq
    have h' : resolvedPat { db with proposals := q :: db.proposals } ptId dId y fa ad ny
        = some pat := h
    rw [generate_gcir_code_eq _ ptId dId y fa ad ny pat h',
      generate_gcir_code_eq db ptId dId y fa ad ny pat h]
    show Except.ok (pat ++ pad4 (gcirNextSerial
        ((q :: db.proposals).filter (fun p => strStartsWith p.gcir_code pat)))) = _
    rw [List.filter_cons_of_neg (by simp [hq])]

/-- C1 witness: with a no-agency code `G-2025-CS-IND-0007` in the store,
the first allocation in the agency partition still yields serial 1. -/
theorem C1_amended_witness :
    generate_gcir_code
      { departments := [⟨1, "CS"⟩], projectTypes := [⟨1, "IND"⟩],
        fundingAgencies := [⟨1, "NSF"⟩],
        proposals := [{ pk := some 1, gcir_code := "G-2025-CS-IND-0007",
                        project_type_id := 1, department_id := 1,
                        funding_agency_id := none, application_date := none }],
        externals := [] }
      1 1 (some 2025) (some 1) none 2025 = .ok ("G-2025-CS-IND-NSF-" ++ pad4 1) :=
  C1_amended.1
    { departments := [⟨1, "CS"⟩], projectTypes := [⟨1, "IND"⟩],
      fundingAgencies := [⟨1, "NSF"⟩],
      proposals := [{ pk := some 1, gcir_code := "G-2025-CS-IND-0007",
                      project_type_id := 1, department_id := 1,
                      funding_agency_id := none, application_date := none }],
      externals := [] }
    1 1 (some 2025) (some 1) none 2025 "G-2025-CS-IND-NSF-" (by decide) (by decide)

/-! ## C3: code format and next-serial rule -/

theorem claimNextSerial_eq (db : DB) (pat : String) :
    claimNextSerial db pat =
      gcirNextSerial (db.proposals.filter (fun p => strStartsWith p.gcir_code pat)) := by
  rw [gcirNextSerial_eq]
  simp only [claimNextSerial, gcirSerials, List.filter_map, List.filterMap_map]
  rfl

theorem toDigitsCore_length_lower (f : Nat) :
    ∀ (n : Nat) (l : List Char) (k : Nat), 10 ^ k ≤ n → n < f →
      k + 1 + l.length ≤ (Nat.toDigitsCore 10 f n l).length := by
  induction f with
  | zero => intro n l k _ h; omega
  | succ f ih =>
    intro n l k hk hf
    simp only [Nat.toDigitsCore]
    by_cases h10 : n / 10 = 0
    · rw [if_pos h10]
      have hn10 : n < 10 := by omega
      have hk0 : k = 0 := by
        by_contra hne
        have h1 : (1 : Nat) ≤ k := by omega
        have : (10 : Nat) ^ 1 ≤ 10 ^ k := Nat.pow_le_pow_right (by norm_num) h1
        simp only [pow_one] at this
        omega
      subst hk0
      simp only [List.length_cons]
      omega
    · rw [if_neg h10]
      have hge : 10 ≤ n := by omega
      have hlt' : n / 10 < f := by omega
      cases k with
      | zero =>
        have h2 := ih (n / 10) (Nat.digitChar (n % 10) :: l) 0 (by simp; omega) hlt'
        simp only [List.length_cons] at h2 ⊢
        omega
      | succ k =>
        have hk' : 10 ^ k ≤ n / 10 := by
          rw [Nat.le_div_iff_mul_le (by norm_num)]
          calc 10 ^ k * 10 = 10 ^ (k + 1) := by ring
          _ ≤ n := hk
        have h2 := ih (n / 10) (Nat.digitChar (n % 10) :: l) k hk' hlt'
        simp only [List.length_cons] at h2 ⊢
        omega

theorem repr_length_lower (n k : Nat) (h : 10 ^ k ≤ n) :
    k + 1 ≤ (Nat.repr n).length := by
  have h2 := toDigitsCore_length_lower (n + 1) n [] k h (by omega)
  simpa [Nat.repr, Nat.toDigits, List.asString, String.length] using h2

theorem pad4_big (n : Int) (h : 10000 ≤ n) :
    pad4 n = toString n.natAbs ∧ 5 ≤ (pad4 n).length := by
  have h0 : ¬ n < 0 := by omega
  have hnat : 10 ^ 4 ≤ n.natAbs := by simp; omega
  have hlen : 5 ≤ (toString n.natAbs).length := by
    have h5 := repr_length_lower n.natAbs 4 hnat
    simpa [toString] using h5
  have hpad : pad4 n = toString n.natAbs := by
    unfold pad4 zfill
    rw [if_neg h0, if_pos (by omega)]
  exact ⟨hpad, by rw [hpad]; exact hlen⟩

/-- C3: for every store and fully resolvable partition key the allocated
code is the partition's pattern followed by the 4-digit zero-padded next
serial, where the next serial follows the spec rule (max of the parsed
serials of codes matching the pattern, plus one, else 1); the padding
grows to 5 or more digits once the serial reaches 10000 (printing the
plain decimal, never erroring); on the empty store the first proposal code
for year 2025 / dept CS / type IND is G-2025-CS-IND-0001 and the first
external-investigator code is E0001. -/
theorem C3_code_format_and_next_serial :
    (∀ (db : DB) (ptId dId : Nat) (y fa : Option Nat) (ad : Option PyDate) (ny : Nat)
        (pat : String),
      resolvedPat db ptId dId y fa ad ny = some pat →
      generate_gcir_code db ptId dId y fa ad ny =
        .ok (pat ++ pad4 (claimNextSerial db pat))) ∧
    (∀ n : Int, 10000 ≤ n → pad4 n = toString n.natAbs ∧ 5 ≤ (pad4 n).length) ∧
    generate_gcir_code
      { departments := [⟨1, "CS"⟩], projectTypes := [⟨1, "IND"⟩], fundingAgencies := [],
        proposals := [], externals := [] } 1 1 (some 2025) none none 2025
      = .ok "G-2025-CS-IND-0001" ∧
    generate_external_investigator_code
      { departments := [], projectTypes := [], fundingAgencies := [], proposals := [],
        externals := [] } = "E0001" := by
  refine ⟨?_, pad4_big, by decide, by decide⟩
  intro db ptId dId y fa ad ny pat h
  rw [generate_gcir_code_eq db ptId dId y fa ad ny pat h, claimNextSerial_eq]

/-- C3 witness: on a store holding serials 1 and 3 in the partition the
next code is G-2025-CS-IND-0004. -/
theorem C3_witness :
    generate_gcir_code
      { departments := [⟨1, "CS"⟩], projectTypes := [⟨1, "IND"⟩], fundingAgencies := [],
        proposals := [{ pk := some 1, gcir_code := "G-2025-CS-IND-0001",
                        project_type_id := 1, department_id := 1,
                        funding_agency_id := none, application_date := none },
                      { pk := some 2, gcir_code := "G-2025-CS-IND-0003",
                        project_type_id := 1, department_id := 1,
                        funding_agency_id := none, application_date := none }],
        externals := [] } 1 1 (some 2025) none none 2025
      = .ok ("G-2025-CS-IND-" ++ pad4 (claimNextSerial
          { departments := [⟨1, "CS"⟩], projectTypes := [⟨1, "IND"⟩], fundingAgencies := [],
            proposals := [{ pk := some 1, gcir_code := "G-2025-CS-IND-0001",
                            project_type_id := 1, department_id := 1,
                            funding_agency_id := none, application_date := none },
                          { pk := some 2, gcir_code := "G-2025-CS-IND-0003",
                            project_type_id := 1, department_id := 1,
                            funding_agency_id := none, application_date := none }],
            externals := [] } "G-2025-CS-IND-")) ∧
    "G-2025-CS-IND-" ++ pad4 (claimNextSerial
      { departments := [⟨1, "CS"⟩], projectTypes := [⟨1, "IND"⟩], fundingAgencies := [],
        proposals := [{ pk := some 1, gcir_code := "G-2025-CS-IND-0001",
                        project_type_id := 1, department_id := 1,
                        funding_agency_id := none, application_date := none },
                      { pk := some 2, gcir_code := "G-2025-CS-IND-0003",
                        project_type_id := 1, department_id := 1,
                        funding_agency_id := none, application_date := none }],
        externals := [] } "G-2025-CS-IND-") = "G-2025-CS-IND-0004" :=
  ⟨C3_code_format_and_next_serial.1
    { departments := [⟨1, "CS"⟩], projectTypes := [⟨1, "IND"⟩], fundingAgencies := [],
      proposals := [{ pk := some 1, gcir_code := "G-2025-CS-IND-0001",
                      project_type_id := 1, department_id := 1,
                      funding_agency_id := none, application_date := none },
                    { pk := some 2, gcir_code := "G-2025-CS-IND-0003",
                      project_type_id := 1, department_id := 1,
                      funding_agency_id := none, application_date := none }],
      externals := [] }
    1 1 (some 2025) none none 2025 "G-2025-CS-IND-" (by decide), by decide⟩

/-! ## C4 and C8: the PI invariant of Proposal.clean -/

/-- C4, counterexample: for a persisted proposal, zero PIs and two PIs
make `Proposal.clean` raise the very same `ValidationError` text — the
source raises one literal sentence (containing both phrases) in both
branches, so the two failure modes do not carry distinct messages. -/
theorem C4_counterexample :
    Proposal.clean
      { pk := some 1, gcir_code := "G-2025-CS-IND-0001", project_type_id := 1,
        department_id := 1, funding_agency_id := none, application_date := none } []
      = Proposal.clean
        { pk := some 1, gcir_code := "G-2025-CS-IND-0001", project_type_id := 1,
          department_id := 1, funding_agency_id := none, application_date := none }
        [⟨1, some 1, none, Role.PI⟩, ⟨1, some 2, none, Role.PI⟩] ∧
    Proposal.clean
      { pk := some 1, gcir_code := "G-2025-CS-IND-0001", project_type_id := 1,
        department_id := 1, funding_agency_id := none, application_date := none } []
      = .error "Proposal must have exactly one Principal Investigator (PI); only one Principal Investigator is allowed." := by
  refine ⟨by decide, by decide⟩

/-- C4, amended: for every persisted proposal the PI-invariant validation
passes iff the number of PI role assignments is exactly 1 (Co-PI rows
never change the count); zero PIs and several PIs both fail, but with one
and the same message, a single sentence containing both the "must have
exactly one" and the "only one ... allowed" phrases. -/
theorem C4_amended :
    ∀ (p : Proposal) (pid : Nat) (rows : List ProposalInvestigator),
      p.pk = some pid →
      ((Proposal.clean p rows = .ok ()) ↔ piCount rows pid = 1) ∧
      (piCount rows pid ≠ 1 →
        Proposal.clean p rows
          = .error "Proposal must have exactly one Principal Investigator (PI); only one Principal Investigator is allowed.") ∧
      (∀ r : ProposalInvestigator, r.role = Role.CO_PI →
        piCount (r :: rows) pid = piCount rows pid) := by
  intro p pid rows hpk
  simp only [Proposal.clean, hpk]
  refine ⟨?_, ?_, ?_⟩
  · by_cases h0 : piCount rows pid = 0
    · simp [h0]
    · by_cases h1 : piCount rows pid > 1
      · rw [if_neg h0, if_pos h1]
        constructor
        · intro h; exact absurd h (by simp)
        · omega
      · have h2 : piCount rows pid = 1 := by omega
        simp [h0, h1, h2]
  · intro hne
    by_cases h0 : piCount rows pid = 0
    · rw [if_pos h0]
    · rw [if_neg h0, if_pos (by omega)]
  · intro r hr
    unfold piCount
    rw [List.filter_cons_of_neg (by simp [hr])]

/-- C4 witness: a persisted proposal with exactly one PI (and a Co-PI)
passes validation. -/
theorem C4_amended_witness :
    ((Proposal.clean
        { pk := some 1, gcir_code := "G-2025-CS-IND-0001", project_type_id := 1,
          department_id := 1, funding_agency_id := none, application_date := none }
        [⟨1, some 1, none, Role.PI⟩, ⟨1, some 2, none, Role.CO_PI⟩] = .ok ())
      ↔ piCount [⟨1, some 1, none, Role.PI⟩, ⟨1, some 2, none, Role.CO_PI⟩] 1 = 1) ∧
    piCount [⟨1, some 1, none, Role.PI⟩, ⟨1, some 2, none, Role.CO_PI⟩] 1 = 1 :=
  ⟨(C4_amended
      { pk := some 1, gcir_code := "G-2025-CS-IND-0001", project_type_id := 1,
        department_id := 1, funding_agency_id := none, application_date := none }
      1 [⟨1, some 1, none, Role.PI⟩, ⟨1, some 2, none, Role.CO_PI⟩] rfl).1,
    by decide⟩

/-- C8: a proposal that has never been persisted (`pk is None`) skips the
PI-invariant validation entirely: `clean` returns without checking, for
any set of role assignments. -/
theorem C8_unsaved_proposal_vacuously_valid :
    ∀ (p : Proposal) (rows : List ProposalInvestigator),
      p.pk = none → Proposal.clean p rows = .ok () := by
  intro p rows h
  unfold Proposal.clean
  rw [h]

/-- C8 witness: an unsaved proposal with two PI assignments on file still
validates. -/
theorem C8_witness :
    Proposal.clean
      { pk := none, gcir_code := "", project_type_id := 1, department_id := 1,
        funding_agency_id := none, application_date := none }
      [⟨1, some 1, none, Role.PI⟩, ⟨1, some 2, none, Role.PI⟩] = .ok () :=
  C8_unsaved_proposal_vacuously_valid
    { pk := none, gcir_code := "", project_type_id := 1, department_id := 1,
      funding_agency_id := none, application_date := none }
    [⟨1, some 1, none, Role.PI⟩, ⟨1, some 2, none, Role.PI⟩] rfl

/-! ## C5: structural constraints on role assignments -/

/-- C5: a role assignment is persistable only when it references exactly
one of the two investigator kinds ((1) and (2)); the admin form rejects
neither/both at form-validation time with the same exactly-one condition
(3); a duplicate internal ((4)) or duplicate external ((5)) investigator
on the same proposal is rejected by the partial unique constraints; and
the two uniqueness scopes are separate per investigator kind: an
internal-only row conflicts only with rows carrying the same internal
reference ((6)), an external-only row only with rows carrying the same
external reference ((7)) — a rejected insert leaves the store unchanged,
so it can never affect a PI count. -/
theorem C5_exactly_one_investigator_kind :
    (∀ (rows rows' : List ProposalInvestigator) (r : ProposalInvestigator),
      insertProposalInvestigator rows r = some rows' →
      checkEitherOr r = true ∧ rows' = rows ++ [r]) ∧
    (∀ (rows : List ProposalInvestigator) (r : ProposalInvestigator),
      checkEitherOr r = false → insertProposalInvestigator rows r = none) ∧
    (∀ (pid : Nat) (role : Role) (i e : Option Nat),
      (proposalInvestigatorFormClean i e = .ok ()) ↔
        checkEitherOr ⟨pid, i, e, role⟩ = true) ∧
    (∀ (rows : List ProposalInvestigator) (r : ProposalInvestigator),
      violatesUniqueInternal rows r = true → insertProposalInvestigator rows r = none) ∧
    (∀ (rows : List ProposalInvestigator) (r : ProposalInvestigator),
      violatesUniqueExternal rows r = true → insertProposalInvestigator rows r = none) ∧
    (∀ (rows : List ProposalInvestigator) (pid i : Nat) (role : Role),
      (∀ q ∈ rows, ¬(q.proposal_id = pid ∧ q.investigator_id = some i)) →
      insertProposalInvestigator rows ⟨pid, some i, none, role⟩
        = some (rows ++ [⟨pid, some i, none, role⟩])) ∧
    (∀ (rows : List ProposalInvestigator) (pid e : Nat) (role : Role),
      (∀ q ∈ rows, ¬(q.proposal_id = pid ∧ q.external_investigator_id = some e)) →
      insertProposalInvestigator rows ⟨pid, none, some e, role⟩
        = some (rows ++ [⟨pid, none, some e, role⟩])) := by
  refine ⟨?_, ?_, ?_, ?_, ?_, ?_, ?_⟩
  · intro rows rows' r h
    unfold insertProposalInvestigator at h
    by_cases hc : (checkEitherOr r && !violatesUniqueInternal rows r
        && !violatesUniqueExternal rows r) = true
    · rw [if_pos hc] at h
      simp only [Bool.and_eq_true] at hc
      exact ⟨hc.1.1, (Option.some.inj h).symm⟩
    · rw [if_neg hc] at h
      exact absurd h (by simp)
  · intro rows r h
    unfold insertProposalInvestigator
    rw [if_neg]
    simp [h]
  · intro pid role i e
    unfold proposalInvestigatorFormClean checkEitherOr
    cases i <;> cases e <;> simp
  · intro rows r h
    unfold insertProposalInvestigator
    rw [if_neg]
    simp [h]
  · intro rows r h
    unfold insertProposalInvestigator
    rw [if_neg]
    simp [h]
  · intro rows pid i role hq
    have h1 : checkEitherOr ⟨pid, some i, none, role⟩ = true := by
      simp [checkEitherOr]
    have h2 : violatesUniqueInternal rows ⟨pid, some i, none, role⟩ = false := by
      simp only [violatesUniqueInternal, Option.isSome_some, Bool.true_and,
        List.any_eq_false]
      intro q hmem
      have := hq q hmem
      simp only [Bool.and_eq_true, decide_eq_true_eq]
      tauto
    have h3 : violatesUniqueExternal rows ⟨pid, some i, none, role⟩ = false := by
      simp [violatesUniqueExternal]
    unfold insertProposalInvestigator
    rw [if_pos (by rw [h1, h2, h3]; rfl)]
  · intro rows pid e role hq
    have h1 : checkEitherOr ⟨pid, none, some e, role⟩ = true := by
      simp [checkEitherOr]
    have h2 : violatesUniqueExternal rows ⟨pid, none, some e, role⟩ = false := by
      simp only [violatesUniqueExternal, Option.isSome_some, Bool.true_and,
        List.any_eq_false]
      intro q hmem
      have := hq q hmem
      simp only [Bool.and_eq_true, decide_eq_true_eq]
      tauto
    have h3 : violatesUniqueInternal rows ⟨pid, none, some e, role⟩ = false := by
      simp [violatesUniqueInternal]
    unfold insertProposalInvestigator
    rw [if_pos (by rw [h1, h2, h3]; rfl)]

/-- C5 witness: on a proposal that already has external investigator 5 as
PI, adding internal investigator 5 (same numeric id, different kind) as
Co-PI is accepted — uniqueness is scoped per kind — while the stored row
references exactly one kind. -/
theorem C5_witness :
    insertProposalInvestigator [⟨1, none, some 5, Role.PI⟩] ⟨1, some 5, none, Role.CO_PI⟩
      = some [⟨1, none, some 5, Role.PI⟩, ⟨1, some 5, none, Role.CO_PI⟩] :=
  C5_exactly_one_investigator_kind.2.2.2.2.2.1 [⟨1, none, some 5, Role.PI⟩] 1 5
    Role.CO_PI (by decide)

/-! ## C6: malformed codes are skipped, never fatal -/

theorem externalNextSerial_eq (l : List ExternalInvestigator) :
    externalNextSerial l =
      if (externalSerials l).isEmpty then 1 else listMax (externalSerials l) + 1 := by
  cases l with
  | nil => simp [externalNextSerial, externalSerials]
  | cons i l => simp [externalNextSerial]

/-- C6: records whose code has no parsable trailing integer never break
allocation: (1) adding a proposal whose trailing segment does not parse
leaves the allocator's result unchanged (the record is silently skipped);
(2) whether allocation succeeds at all never depends on the stored
proposals (a malformed code is never fatal and never surfaced — failure
only ever comes from unresolvable partition lookups); (3) likewise an
external investigator with an unset or unparsable code is skipped without
changing the generated external code. -/
theorem C6_malformed_codes_skipped :
    (∀ (db : DB) (ptId dId : Nat) (y fa : Option Nat) (ad : Option PyDate) (ny : Nat)
        (pat : String) (q : Proposal),
      resolvedPat db ptId dId y fa ad ny = some pat →
      proposalSerial q.gcir_code = none →
      generate_gcir_code { db with proposals := q :: db.proposals } ptId dId y fa ad ny =
        generate_gcir_code db ptId dId y fa ad ny) ∧
    (∀ (db : DB) (ps : List Proposal) (ptId dId : Nat) (y fa : Option Nat)
        (ad : Option PyDate) (ny : Nat),
      (generate_gcir_code { db with proposals := ps } ptId dId y fa ad ny).isOk =
        (generate_gcir_code db ptId dId y fa ad ny).isOk) ∧
    (∀ (db : DB) (i : ExternalInvestigator),
      externalSerial i.code = none →
      generate_external_investigator_code { db with externals := i :: db.externals } =
        generate_external_investigator_code db) := by
  refine ⟨?_, ?_, ?_⟩
  · intro db ptId dId y fa ad ny pat q h hser
    exact generate_cons_skip db ptId dId y fa ad ny pat q h (Or.inr hser)
  · intro db ps ptId dId y fa ad ny
    rw [generate_gcir_code_isOk, generate_gcir_code_isOk]
    rfl
  · intro db i h
    unfold generate_external_investigator_code
    show "E" ++ pad4 (externalNextSerial (i :: db.externals)) = _
    rw [externalNextSerial_eq, externalNextSerial_eq]
    have hs : externalSerials (i :: db.externals) = externalSerials db.externals := by
      simp [externalSerials, List.filterMap_cons, h]
    rw [hs]

/-- C6 witness: a legacy proposal code with a non-numeric tail and an
external investigator with a malformed code are both skipped. -/
theorem C6_witness :
    generate_gcir_code
      { departments := [⟨1, "CS"⟩], projectTypes := [⟨1, "IND"⟩], fundingAgencies := [],
        proposals := [{ pk := some 7, gcir_code := "G-2025-CS-IND-LEGACY",
                        project_type_id := 1, department_id := 1,
                        funding_agency_id := none, application_date := none },
                      { pk := some 1, gcir_code := "G-2025-CS-IND-0005",
                        project_type_id := 1, department_id := 1,
                        funding_agency_id := none, application_date := none }],
        externals := [] } 1 1 (some 2025) none none 2025 =
      generate_gcir_code
        { departments := [⟨1, "CS"⟩], projectTypes := [⟨1, "IND"⟩], fundingAgencies := [],
          proposals := [{ pk := some 1, gcir_code := "G-2025-CS-IND-0005",
                          project_type_id := 1, department_id := 1,
                          funding_agency_id := none, application_date := none }],
          externals := [] } 1 1 (some 2025) none none 2025 ∧
    generate_gcir_code
      { departments := [⟨1, "CS"⟩], projectTypes := [⟨1, "IND"⟩], fundingAgencies := [],
        proposals := [{ pk := some 1, gcir_code := "G-2025-CS-IND-0005",
                        project_type_id := 1, department_id := 1,
                        funding_agency_id := none, application_date := none }],
        externals := [] } 1 1 (some 2025) none none 2025 = .ok "G-2025-CS-IND-0006" :=
  ⟨C6_malformed_codes_skipped.1
      { departments := [⟨1, "CS"⟩], projectTypes := [⟨1, "IND"⟩], fundingAgencies := [],
        proposals := [{ pk := some 1, gcir_code := "G-2025-CS-IND-0005",
                        project_type_id := 1, department_id := 1,
                        funding_agency_id := none, application_date := none }],
        externals := [] } 1 1 (some 2025) none none 2025 "G-2025-CS-IND-"
      { pk := some 7, gcir_code := "G-2025-CS-IND-LEGACY", project_type_id := 1,
        department_id := 1, funding_agency_id := none, application_date := none }
      (by decide) (by decide),
    by decide⟩

/-! ## C7: year determination -/

/-- C7: with no explicit year, the allocated code's year falls back to the
application (reference) date's year when one is given, and to the current
calendar year otherwise; feeding the derived year back in as the explicit
year leaves the allocation unchanged, so the explicit year is what the
code embeds. -/
theorem C7_year_defaulting :
    (∀ ny : Nat, deriveYear none none ny = ny) ∧
    (∀ (d : PyDate) (ny : Nat), deriveYear none (some d) ny = d.year) ∧
    (∀ (y : Nat) (ad : Option PyDate) (ny : Nat), deriveYear (some y) ad ny = y) ∧
    (∀ (db : DB) (ptId dId : Nat) (fa : Option Nat) (ny : Nat),
      generate_gcir_code db ptId dId none fa none ny =
        generate_gcir_code db ptId dId (some ny) fa none ny) ∧
    (∀ (db : DB) (ptId dId : Nat) (fa : Option Nat) (d : PyDate) (ny : Nat),
      generate_gcir_code db ptId dId none fa (some d) ny =
        generate_gcir_code db ptId dId (some d.year) fa (some d) ny) :=
  ⟨fun _ => rfl, fun _ _ => rfl, fun _ _ _ => rfl,
   fun _ _ _ _ _ => rfl, fun _ _ _ _ _ _ => rfl⟩

/-! ## C9: explicit codes are kept, and perturb only via their suffix -/

theorem getLastD_mem {α : Type} : ∀ (l : List α) (d : α), l ≠ [] → l.getLastD d ∈ l := by
  intro l
  induction l with
  | nil => intro d h; exact absurd rfl h
  | cons a l ih =>
    intro d _
    rw [List.getLastD_cons]
    cases hl : l with
    | nil => simp [List.getLastD_nil]
    | cons b m =>
      have := ih a (by simp [hl])
      rw [hl] at this
      exact List.mem_cons_of_mem a (hl ▸ this)

theorem splitOnDash_ne_nil (cs : List Char) : splitOnDash cs ≠ [] := by
  induction cs with
  | nil => simp [splitOnDash]
  | cons c cs ih =>
    simp only [splitOnDash]
    by_cases h : c = '-'
    · simp [h]
    · rw [if_neg h]
      cases hs : splitOnDash cs with
      | nil => simp
      | cons hd tl => simp

theorem splitOnDash_no_dash (cs : List Char) :
    ∀ seg ∈ splitOnDash cs, '-' ∉ seg := by
  induction cs with
  | nil =>
    intro seg h
    simp only [splitOnDash, List.mem_singleton] at h
    subst h
    simp
  | cons c cs ih =>
    intro seg hmem
    simp only [splitOnDash] at hmem
    by_cases h : c = '-'
    · rw [if_pos h] at hmem
      rcases List.mem_cons.mp hmem with rfl | hmem'
      · simp
      · exact ih seg hmem'
    · rw [if_neg h] at hmem
      cases hs : splitOnDash cs with
      | nil => exact absurd hs (splitOnDash_ne_nil cs)
      | cons hd tl =>
        rw [hs] at hmem
        rcases List.mem_cons.mp hmem with rfl | hmem'
        · intro hin
          rcases List.mem_cons.mp hin with h1 | h2
          · exact h h1.symm
          · exact ih hd (hs ▸ List.mem_cons_self hd tl) h2
        · exact ih seg (hs ▸ List.mem_cons_of_mem hd hmem')

theorem trimChars_subset (cs : List Char) : trimChars cs ⊆ cs := by
  unfold trimChars
  intro a ha
  rw [List.mem_reverse] at ha
  have h1 := (List.dropWhile_sublist
    (l := (cs.dropWhile Char.isWhitespace).reverse) Char.isWhitespace).subset ha
  rw [List.mem_reverse] at h1
  exact (List.dropWhile_sublist (l := cs) Char.isWhitespace).subset h1

theorem lastSegment_no_dash (s : String) : '-' ∉ (lastSegment s).data := by
  show '-' ∉ (splitOnDash s.data).getLastD []
  exact splitOnDash_no_dash s.data _
    (getLastD_mem (splitOnDash s.data) [] (splitOnDash_ne_nil s.data))

theorem pyInt_nonneg (s : String) (hnd : '-' ∉ s.data) (n : Int)
    (hp : pyInt s = some n) : 0 ≤ n := by
  unfold pyInt at hp
  have htrim : '-' ∉ trimChars s.data := fun hmem => hnd (trimChars_subset s.data hmem)
  have hneg : charsStartWith (trimChars s.data) ['-'] = false := by
    cases ht : trimChars s.data with
    | nil => rfl
    | cons c cs' =>
      have hc : c ≠ '-' := by
        intro hc
        exact htrim (ht ▸ hc ▸ List.mem_cons_self c cs')
      simp [charsStartWith, hc]
  simp only [hneg, Bool.false_or, Bool.false_eq_true, if_false] at hp
  split at hp
  · split at hp
    · have := Option.some.inj hp
      omega
    · exact absurd hp (by simp)
  · split at hp
    · have := Option.some.inj hp
      omega
    · exact absurd hp (by simp)

theorem proposalSerial_nonneg (code : String) (n : Int)
    (h : proposalSerial code = some n) : 0 ≤ n :=
  pyInt_nonneg (lastSegment code) (lastSegment_no_dash code) n h

theorem foldl_max_shift (ms : List Int) :
    ∀ a b : Int, ms.foldl max (max a b) = max a (ms.foldl max b) := by
  induction ms with
  | nil => intro a b; simp
  | cons c ms ih =>
    intro a b
    rw [List.foldl_cons, List.foldl_cons, max_assoc, ih a (max b c)]

theorem gcirNextSerial_cons_some (q : Proposal) (l : List Proposal) (n : Int)
    (h : proposalSerial q.gcir_code = some n) (hn : 0 ≤ n) :
    gcirNextSerial (q :: l) = max (n + 1) (gcirNextSerial l) := by
  rw [gcirNextSerial_eq, gcirNextSerial_eq]
  have hs : gcirSerials (q :: l) = n :: gcirSerials l := by
    simp [gcirSerials, List.filterMap_cons, h]
  rw [hs]
  cases hg : gcirSerials l with
  | nil =>
    simp only [List.isEmpty_cons, List.isEmpty_nil, if_false, if_true]
    show listMax [n] + 1 = max (n + 1) 1
    simp only [listMax, List.foldl_nil]
    omega
  | cons m ms =>
    simp only [List.isEmpty_cons, if_false]
    show listMax (n :: m :: ms) + 1 = max (n + 1) (listMax (m :: ms) + 1)
    show (m :: ms).foldl max n + 1 = max (n + 1) (ms.foldl max m + 1)
    rw [List.foldl_cons, foldl_max_shift ms n m]
    omega

/-- C9: (1) a proposal saved with a non-empty `gcir_code` is returned by
the pre-save hook untouched, for every store — the allocator is never
consulted; (2) a proposal that already has a primary key is likewise
untouched on later saves; (3)/(4) the same for external investigators
(non-falsy code, or an existing pk); (5) a stored custom code that does
not match the partition pattern, or whose trailing segment does not parse,
leaves the next allocation unchanged; (6) a custom code matching the
pattern with parsable suffix `n` shifts the next serial to
`max (n + 1) (next without it)` — its influence is exactly its numeric
suffix. -/
theorem C9_explicit_code_never_overwritten :
    (∀ (db : DB) (p : Proposal) (ny : Nat), p.gcir_code ≠ "" →
      auto_generate_gcir_code db p ny = .ok p) ∧
    (∀ (db : DB) (p : Proposal) (ny : Nat), p.pk ≠ none →
      auto_generate_gcir_code db p ny = .ok p) ∧
    (∀ (db : DB) (i : ExternalInvestigator), i.code ≠ none → i.code ≠ some "" →
      auto_generate_external_investigator_code db i = i) ∧
    (∀ (db : DB) (i : ExternalInvestigator), i.pk ≠ none →
      auto_generate_external_investigator_code db i = i) ∧
    (∀ (db : DB) (ptId dId : Nat) (y fa : Option Nat) (ad : Option PyDate) (ny : Nat)
        (pat : String) (q : Proposal),
      resolvedPat db ptId dId y fa ad ny = some pat →
      (strStartsWith q.gcir_code pat = false ∨ proposalSerial q.gcir_code = none) →
      generate_gcir_code { db with proposals := q :: db.proposals } ptId dId y fa ad ny =
        generate_gcir_code db ptId dId y fa ad ny) ∧
    (∀ (db : DB) (ptId dId : Nat) (y fa : Option Nat) (ad : Option PyDate) (ny : Nat)
        (pat : String) (q : Proposal) (n : Int),
      resolvedPat db ptId dId y fa ad ny = some pat →
      strStartsWith q.gcir_code pat = true →
      proposalSerial q.gcir_code = some n →
      generate_gcir_code { db with proposals := q :: db.proposals } ptId dId y fa ad ny =
        .ok (pat ++ pad4 (max (n + 1) (gcirNextSerial
          (db.proposals.filter (fun p => strStartsWith p.gcir_code pat)))))) := by
  refine ⟨?_, ?_, ?_, ?_, ?_, ?_⟩
  · intro db p ny h
    unfold auto_generate_gcir_code
    rw [if_neg (by simp [h])]
  · intro db p ny h
    unfold auto_generate_gcir_code
    rw [if_neg (by simp [h])]
  · intro db i h1 h2
    unfold auto_generate_external_investigator_code
    rw [if_neg (by simp [h1, h2])]
  · intro db i h
    unfold auto_generate_external_investigator_code
    rw [if_neg (by simp [h])]
  · intro db ptId dId y fa ad ny pat q h hq
    exact generate_cons_skip db ptId dId y fa ad ny pat q h hq
  · intro db ptId dId y fa ad ny pat q n h hm hser
    have h' : resolvedPat { db with proposals := q :: db.proposals } ptId dId y fa ad ny
        = some pat := h
    rw [generate_gcir_code_eq _ ptId dId y fa ad ny pat h']
    show Except.ok (pat ++ pad4 (gcirNextSerial
        ((q :: db.proposals).filter (fun p => strStartsWith p.gcir_code pat)))) = _
    rw [List.filter_cons_of_pos (by simp [hm]),
      gcirNextSerial_cons_some q _ n hser (proposalSerial_nonneg q.gcir_code n hser)]

/-- C9 witness: a custom code G-2025-CS-IND-0099 is kept as-is by the
pre-save hook, and once stored it pushes the next allocation in its
partition to serial 0100 = max (99 + 1) 1. -/
theorem C9_witness :
    auto_generate_gcir_code
      { departments := [⟨1, "CS"⟩], projectTypes := [⟨1, "IND"⟩], fundingAgencies := [],
        proposals := [], externals := [] }
      { pk := none, gcir_code := "G-2025-CS-IND-0099", project_type_id := 1,
        department_id := 1, funding_agency_id := none, application_date := none } 2025
      = .ok { pk := none, gcir_code := "G-2025-CS-IND-0099", project_type_id := 1,
              department_id := 1, funding_agency_id := none, application_date := none } ∧
    generate_gcir_code
      { departments := [⟨1, "CS"⟩], projectTypes := [⟨1, "IND"⟩], fundingAgencies := [],
        proposals := [{ pk := some 1, gcir_code := "G-2025-CS-IND-0099",
                        project_type_id := 1, department_id := 1,
                        funding_agency_id := none, application_date := none }],
        externals := [] } 1 1 (some 2025) none none 2025
      = .ok ("G-2025-CS-IND-" ++ pad4 (max ((99 : Int) + 1) (gcirNextSerial []))) ∧
    "G-2025-CS-IND-" ++ pad4 (max ((99 : Int) + 1) (gcirNextSerial [])) =
      "G-2025-CS-IND-0100" :=
  ⟨C9_explicit_code_never_overwritten.1
      { departments := [⟨1, "CS"⟩], projectTypes := [⟨1, "IND"⟩], fundingAgencies := [],
        proposals := [], externals := [] }
      { pk := none, gcir_code := "G-2025-CS-IND-0099", project_type_id := 1,
        department_id := 1, funding_agency_id := none, application_date := none }
      2025 (by decide),
    C9_explicit_code_never_overwritten.2.2.2.2.2
      { departments := [⟨1, "CS"⟩], projectTypes := [⟨1, "IND"⟩], fundingAgencies := [],
        proposals := [], externals := [] }
      1 1 (some 2025) none none 2025 "G-2025-CS-IND-"
      { pk := some 1, gcir_code := "G-2025-CS-IND-0099", project_type_id := 1,
        department_id := 1, funding_agency_id := none, application_date := none }
      99 (by decide) (by decide) (by decide),
    by decide⟩

/-! ## C10: save_formset never rolls back, only reports -/

/-- C10: in the admin save path, `save_formset` persists the batch of
role-assignment changes unconditionally — the store it returns is exactly
the saved state in every branch, with no rollback and no exception — and
the PI-count violation is reported only as a user message: a warning when
the saved state has zero PIs, an error naming the count when it has more
than one, and a success message when it has exactly one. -/
theorem C10_save_formset_only_reports :
    ∀ (rows toDelete toAdd : List ProposalInvestigator) (pid : Nat),
      (save_formset rows toDelete toAdd pid).1 = applyFormsetSave rows toDelete toAdd ∧
      (piCount (applyFormsetSave rows toDelete toAdd) pid = 0 →
        (save_formset rows toDelete toAdd pid).2 =
          .warning "⚠️  Warning: This proposal has no Principal Investigator (PI). Each proposal must have exactly one PI. Please add one in the Investigators section.") ∧
      (1 < piCount (applyFormsetSave rows toDelete toAdd) pid →
        (save_formset rows toDelete toAdd pid).2 =
          .error ("❌ Error: This proposal has "
            ++ toString (piCount (applyFormsetSave rows toDelete toAdd) pid)
            ++ " Principal Investigators (PIs), but only one is allowed. Please remove the extras.")) ∧
      (piCount (applyFormsetSave rows toDelete toAdd) pid = 1 →
        (save_formset rows toDelete toAdd pid).2 =
          .success ("✓ Proposal saved. PI: 1, Co-PIs: "
            ++ toString (coPiCount (applyFormsetSave rows toDelete toAdd) pid))) := by
  intro rows toDelete toAdd pid
  refine ⟨?_, ?_, ?_, ?_⟩
  · simp only [save_formset]
    split
    · rfl
    · split <;> rfl
  · intro h
    simp only [save_formset, h, if_true]
  · intro h
    simp only [save_formset]
    rw [if_neg (by omega), if_pos (by omega)]
  · intro h
    simp only [save_formset]
    rw [if_neg (by omega), if_neg (by omega)]

/-- C10 witness: saving a batch that leaves the proposal with two PIs
keeps both rows saved and merely emits the two-PI error message. -/
theorem C10_witness :
    (save_formset [] [] [⟨1, some 1, none, Role.PI⟩, ⟨1, some 2, none, Role.PI⟩] 1).1
      = applyFormsetSave [] [] [⟨1, some 1, none, Role.PI⟩, ⟨1, some 2, none, Role.PI⟩] ∧
    applyFormsetSave [] [] [⟨1, some 1, none, Role.PI⟩, ⟨1, some 2, none, Role.PI⟩]
      = [⟨1, some 1, none, Role.PI⟩, ⟨1, some 2, none, Role.PI⟩] ∧
    (save_formset [] [] [⟨1, some 1, none, Role.PI⟩, ⟨1, some 2, none, Role.PI⟩] 1).2
      = .error ("❌ Error: This proposal has "
          ++ toString (piCount (applyFormsetSave [] []
              [⟨1, some 1, none, Role.PI⟩, ⟨1, some 2, none, Role.PI⟩]) 1)
          ++ " Principal Investigators (PIs), but only one is allowed. Please remove the extras.") :=
  ⟨(C10_save_formset_only_reports [] []
      [⟨1, some 1, none, Role.PI⟩, ⟨1, some 2, none, Role.PI⟩] 1).1,
    by decide,
    (C10_save_formset_only_reports [] []
      [⟨1, some 1, none, Role.PI⟩, ⟨1, some 2, none, Role.PI⟩] 1).2.2.1 (by decide)⟩
